import Mathlib

/-!
Shallow embedding of the `mergerfs-balance` balance engine
(`src/mergerfs_balance/{drives,transfer,balance,cli}.py`).

Modelling conventions:
* Python `float` values (usage percentages, parsed speeds and sizes) are
  modelled as exact rationals (`ℚ`); byte counts are `ℕ`.  The inputs
  appearing in the verified scenarios are exactly representable, so the
  rational model agrees with the floating-point program on them.
* The Python dict `DriveManager._drives` (keyed by drive path, keys
  unique) is modelled as a `List Drive`; reads take the first match and
  writes update every match, which coincide under key uniqueness.
* The Python set `TransferPool._in_flight_paths` is modelled as a
  `List String`: `set.add` inserts only when absent (the code checks
  membership first), `set.discard` removes every occurrence.
* Fallible Python code (raising `ValueError` / `TypeError`) is modelled
  with `Except String`.
* Wall-clock quantities (`duration_seconds`, timestamps) and the
  interactive continue-prompt are outside the embedding; the prompt is
  recorded as a `prompt_requested` flag on the coordinator state.
-/

/-! ## transfer.py: statuses, progress and results -/

/-- `TransferStatus` enum from transfer.py. -/
inductive TransferStatus where
  | pending
  | running
  | completed
  | failed
  | cancelled
deriving DecidableEq

/-- Boolean discriminator for `TransferStatus.RUNNING`, used where the
Python code compares `w.status == TransferStatus.RUNNING`. -/
def statusIsRunning : TransferStatus → Bool
  | .running => true
  | _ => false

/-- `TransferProgress` dataclass (total_bytes is set to 0 by the parser). -/
structure TransferProgress where
  bytes_transferred : Nat
  total_bytes : Nat
  percent : ℚ
  speed_bytes_per_sec : ℚ
  eta_seconds : Option Nat
deriving DecidableEq

/-- `TransferResult` dataclass (the wall-clock `duration_seconds` field is
not modelled). -/
structure TransferResult where
  source_path : String
  dest_path : String
  status : TransferStatus
  bytes_transferred : Nat := 0
  error_message : Option String := none
deriving DecidableEq

/-! ## drives.py: drive statistics and the drive manager -/

/-- `DriveStats` dataclass from drives.py. -/
structure DriveStats where
  path : String
  total_bytes : Nat
  used_bytes : Nat
  free_bytes : Nat
deriving DecidableEq

/-- `DriveStats.usage_percent`: `(used / total) * 100`, and `0.0` when
`total_bytes == 0`. -/
def DriveStats.usage_percent (s : DriveStats) : ℚ :=
  if s.total_bytes = 0 then 0
  else ((s.used_bytes : ℚ) / (s.total_bytes : ℚ)) * 100

/-- `DriveStats.free_percent`: `100.0 - usage_percent`. -/
def DriveStats.free_percent (s : DriveStats) : ℚ :=
  100 - s.usage_percent

/-- `Drive` dataclass (the `threading.Lock` field only guards the
compare-and-set on `write_locked`; the atomic flag flip itself is what we
model). -/
structure Drive where
  path : String
  stats : DriveStats
  write_locked : Bool := false
deriving DecidableEq

/-- `DriveManager` state: the `_source_paths` / `_dest_paths` lists and the
`_drives` dict (as a list of drives with unique paths). -/
structure DriveManager where
  source_paths : List String
  dest_paths : List String
  drives : List Drive
deriving DecidableEq

/-- Dict lookup in the list model of `_drives`: first entry with the given
path. -/
def findDriveList : List Drive → String → Option Drive
  | [], _ => none
  | d :: ds, p => if d.path = p then some d else findDriveList ds p

/-- Dict lookup `self._drives[path]`. -/
def DriveManager.findDrive (dm : DriveManager) (p : String) : Option Drive :=
  findDriveList dm.drives p

/-- `DriveManager.source_drives` property: `[self._drives[p] for p in self._source_paths]`. -/
def DriveManager.source_drives (dm : DriveManager) : List Drive :=
  dm.source_paths.filterMap dm.findDrive

/-- `DriveManager.dest_drives` property. -/
def DriveManager.dest_drives (dm : DriveManager) : List Drive :=
  dm.dest_paths.filterMap dm.findDrive

/-- `DriveManager.get_average_usage`: `0.0` for an empty pool or zero total
capacity, else capacity-weighted `total_used / total_capacity * 100`. -/
def DriveManager.get_average_usage (dm : DriveManager) : ℚ :=
  if dm.drives.isEmpty then 0
  else if (dm.drives.map (fun d => d.stats.total_bytes)).sum = 0 then 0
  else ((dm.drives.map (fun d => d.stats.used_bytes)).sum : ℚ) /
        ((dm.drives.map (fun d => d.stats.total_bytes)).sum : ℚ) * 100

/-- Python `max` over a nonempty list (returns the first maximum). -/
def listMaxQ : ℚ → List ℚ → ℚ
  | a, [] => a
  | a, b :: l => listMaxQ (max a b) l

/-- Python `min` over a nonempty list (returns the first minimum). -/
def listMinQ : ℚ → List ℚ → ℚ
  | a, [] => a
  | a, b :: l => listMinQ (min a b) l

/-- `DriveManager.get_usage_range`: `max(usages) - min(usages)`, `0.0` for an
empty pool. -/
def DriveManager.get_usage_range (dm : DriveManager) : ℚ :=
  match dm.drives.map (fun d => d.stats.usage_percent) with
  | [] => 0
  | u :: us => listMaxQ u us - listMinQ u us

/-- `DriveManager.is_balanced`: `usage_range <= target_percentage`. -/
def DriveManager.is_balanced (dm : DriveManager) (target_percentage : ℚ) : Bool :=
  decide (dm.get_usage_range ≤ target_percentage)

/-- One step of the stable descending insertion used to model Python
`sorted(xs, key=key, reverse=True)`: the new element goes after every
already-placed element with a key that is not smaller. -/
def insertByDesc {α β : Type} [LinearOrder β] (key : α → β) (a : α) : List α → List α
  | [] => [a]
  | b :: l => if key b < key a then a :: b :: l else b :: insertByDesc key a l

/-- Python `sorted(xs, key=key, reverse=True)`: stable descending sort. -/
def sortedByDesc {α β : Type} [LinearOrder β] (key : α → β) (l : List α) : List α :=
  l.foldl (fun acc a => insertByDesc key a acc) []

/-- Python `max(xs, key=key)` over a nonempty list: first element of maximal
key wins (later elements replace only on a strictly greater key). -/
def pyMaxBy {α β : Type} [LinearOrder β] (key : α → β) (a : α) (l : List α) : α :=
  l.foldl (fun m b => if key m < key b then b else m) a

/-- `DriveManager.get_overfull_drives`: source drives with
`usage_percent > avg + p/2`, sorted by usage descending. -/
def DriveManager.get_overfull_drives (dm : DriveManager) (target_percentage : ℚ) : List Drive :=
  sortedByDesc (fun d => d.stats.usage_percent)
    (dm.source_drives.filter
      (fun d => decide (dm.get_average_usage + target_percentage / 2 < d.stats.usage_percent)))

/-- `DriveManager.get_underfull_drives`: destination drives with
`usage_percent < avg - p/2`, sorted by `free_bytes` descending. -/
def DriveManager.get_underfull_drives (dm : DriveManager) (target_percentage : ℚ) : List Drive :=
  sortedByDesc (fun d => d.stats.free_bytes)
    (dm.dest_drives.filter
      (fun d => decide (d.stats.usage_percent < dm.get_average_usage - target_percentage / 2)))

/-- `DriveManager.get_best_destination(target_percentage, exclude_busy)`:
among underfull destination drives (optionally dropping write-locked ones),
the one with maximum `free_bytes`; `None` when there is no candidate. -/
def DriveManager.get_best_destination (dm : DriveManager) (target_percentage : ℚ)
    (exclude_busy : Bool) : Option Drive :=
  let candidates := dm.dest_drives.filter
    (fun d => decide (d.stats.usage_percent < dm.get_average_usage - target_percentage / 2))
  let candidates := if exclude_busy then candidates.filter (fun d => !d.write_locked) else candidates
  match candidates with
  | [] => none
  | d :: ds => some (pyMaxBy (fun e => e.stats.free_bytes) d ds)

/-- Setting the `write_locked` flag of the dict entry for `p` (updates every
match; with unique paths this is the single dict entry). -/
def setDriveLock : List Drive → String → Bool → List Drive
  | [], _, _ => []
  | e :: ds, p, b =>
    (if e.path = p then { e with write_locked := b } else e) :: setDriveLock ds p b

/-- `DriveManager.acquire_write_lock`: `False` for an unknown path; otherwise
compare-and-set of `write_locked`, returning whether it succeeded. -/
def DriveManager.acquire_write_lock (dm : DriveManager) (p : String) : Bool × DriveManager :=
  match dm.findDrive p with
  | none => (false, dm)
  | some d =>
    if d.write_locked then (false, dm)
    else (true, { dm with drives := setDriveLock dm.drives p true })

/-- `DriveManager.release_write_lock`: clears the flag when the path is
known; no-op otherwise. -/
def DriveManager.release_write_lock (dm : DriveManager) (p : String) : DriveManager :=
  match dm.findDrive p with
  | none => dm
  | some _ => { dm with drives := setDriveLock dm.drives p false }

/-! ## balance.py: the coordinator's destination-selection call

`BalanceCoordinator._balance_loop` (line 209) and
`BalanceCoordinator._find_file_to_transfer` (line 299) both invoke
`self.drive_manager.get_best_destination(exclude_busy=True)`.  The method
signature is `get_best_destination(self, target_percentage, exclude_busy=True)`,
so Python argument binding is part of the semantics of this call; we embed
it explicitly. -/

/-- Python binding of the arguments of
`DriveManager.get_best_destination(self, target_percentage, exclude_busy=True)`
for a call supplying at most one positional argument.  Binding raises
`TypeError` when the required parameter `target_percentage` receives no
value, or receives one twice. -/
def bindGetBestDestinationArgs (posTarget : Option ℚ) (kwTarget : Option ℚ)
    (kwExcludeBusy : Option Bool) : Except String (ℚ × Bool) :=
  match posTarget, kwTarget with
  | none, none =>
    .error "TypeError: get_best_destination() missing 1 required positional argument: target_percentage"
  | some t, none => .ok (t, kwExcludeBusy.getD true)
  | none, some t => .ok (t, kwExcludeBusy.getD true)
  | some _, some _ =>
    .error "TypeError: get_best_destination() got multiple values for argument target_percentage"

/-- The coordinator's destination-selection step, balance.py line 209:
`dest_drive = self.drive_manager.get_best_destination(exclude_busy=True)` —
no positional argument and no `target_percentage` keyword are supplied. -/
def coordinatorSelectDestination (dm : DriveManager) : Except String (Option Drive) :=
  match bindGetBestDestinationArgs none none (some true) with
  | .error e => .error e
  | .ok te => .ok (dm.get_best_destination te.1 te.2)

/-! ## transfer.py: the transfer worker -/

/-- Worker state: constructor arguments plus the `status` field and the
`_cancelled` event (`threading.Event` modelled as a flag). -/
structure WorkerState where
  source_path : String
  dest_path : String
  file_size : Nat
  dry_run : Bool
  status : TransferStatus
  cancelledFlag : Bool
deriving DecidableEq

/-- `TransferWorker.cancel`: sets the `_cancelled` event (and signals the
child process); it does not touch `status`. -/
def WorkerState.cancel (w : WorkerState) : WorkerState :=
  { w with cancelledFlag := true }

/-- Environment behaviour of the external rsync child during a live run. -/
inductive RsyncOutcome where
  | success
  | failure (msg : String)
  | cancelledDuringRun
  | toolMissing
  | setupError (msg : String)
deriving DecidableEq

/-- Result of `TransferWorker._run_rsync` (and of the surrounding
exception handler in `run`) for a given child outcome. -/
def runRsyncResult (w : WorkerState) (out : RsyncOutcome) : TransferResult :=
  match out with
  | .success =>
    { source_path := w.source_path, dest_path := w.dest_path,
      status := .completed, bytes_transferred := w.file_size }
  | .failure m =>
    { source_path := w.source_path, dest_path := w.dest_path,
      status := .failed, error_message := some m }
  | .cancelledDuringRun =>
    { source_path := w.source_path, dest_path := w.dest_path, status := .cancelled }
  | .toolMissing =>
    { source_path := w.source_path, dest_path := w.dest_path,
      status := .failed, error_message := some "rsync not found. Please install rsync." }
  | .setupError m =>
    { source_path := w.source_path, dest_path := w.dest_path,
      status := .failed, error_message := some m }

/-- What `TransferWorker.run` returns and does: the updated worker, the
returned result, the list of `on_complete` invocations, and the sequence of
values assigned to `self.status` during the call. -/
structure RunReturn where
  worker : WorkerState
  ret : TransferResult
  emitted : List TransferResult
  statuses_entered : List TransferStatus
deriving DecidableEq

/-- `TransferWorker.run`: if `_cancelled` is already set, go straight from
the current status to `CANCELLED` and emit one Cancelled result; otherwise
set `RUNNING`, perform the (dry or live) transfer, record the terminal
status, and emit the one result. -/
def WorkerState.run (w : WorkerState) (out : RsyncOutcome) : RunReturn :=
  if w.cancelledFlag then
    let r : TransferResult :=
      { source_path := w.source_path, dest_path := w.dest_path, status := .cancelled }
    ⟨{ w with status := .cancelled }, r, [r], [.cancelled]⟩
  else
    let r : TransferResult :=
      if w.dry_run then
        { source_path := w.source_path, dest_path := w.dest_path,
          status := .completed, bytes_transferred := w.file_size }
      else runRsyncResult w out
    ⟨{ w with status := r.status }, r, [r], [.running, r.status]⟩

/-! ## transfer.py: the transfer pool -/

/-- One entry of `TransferPool._workers`: only the source path and the
status matter to the pool's bookkeeping. -/
structure PoolWorker where
  source_path : String
  status : TransferStatus
deriving DecidableEq

/-- `TransferPool` bookkeeping state. -/
structure TransferPool where
  max_workers : Nat
  workers : List PoolWorker
  in_flight_paths : List String
  completed : List TransferResult
deriving DecidableEq

/-- `TransferPool.active_count`: number of workers whose status is RUNNING. -/
def TransferPool.active_count (p : TransferPool) : Nat :=
  (p.workers.filter (fun w => statusIsRunning w.status)).length

/-- `TransferPool.has_capacity`: `active_count < max_workers`. -/
def TransferPool.has_capacity (p : TransferPool) : Bool :=
  decide (p.active_count < p.max_workers)

/-- `TransferPool.submit`: reject when the pool has no capacity or the
worker's source path is already in flight; otherwise record the path and
append the worker. -/
def TransferPool.submit (p : TransferPool) (w : PoolWorker) : Bool × TransferPool :=
  if p.has_capacity = false then (false, p)
  else if w.source_path ∈ p.in_flight_paths then (false, p)
  else (true, { p with in_flight_paths := w.source_path :: p.in_flight_paths,
                       workers := p.workers ++ [w] })

/-- Events interleaved with the pool: a submission (freshly constructed
workers are PENDING), a worker's `run` entering RUNNING, and the
`run_and_collect` bookkeeping once a worker's `run` has returned a
(terminal) result. -/
inductive PoolEvent where
  | submit (path : String)
  | start (path : String)
  | finish (path : String) (r : TransferResult)

/-- Status assignment for the worker with the given source path. -/
def setWorkerStatus (ws : List PoolWorker) (path : String) (st : TransferStatus) : List PoolWorker :=
  ws.map (fun w => if w.source_path = path then { w with status := st } else w)

/-- One pool transition.  `finish path r` is `run_and_collect` after
`worker.run()` returned `r`: the result is appended to `_completed`, the
path is discarded from `_in_flight_paths`, and non-RUNNING workers are
pruned from `_workers`. -/
def TransferPool.step (p : TransferPool) : PoolEvent → TransferPool
  | .submit path => (p.submit ⟨path, .pending⟩).2
  | .start path => { p with workers := setWorkerStatus p.workers path .running }
  | .finish path r =>
    { p with
      workers := (setWorkerStatus p.workers path r.status).filter
        (fun w => statusIsRunning w.status),
      in_flight_paths := p.in_flight_paths.filter (fun q => decide (q ≠ path)),
      completed := p.completed ++ [r] }

/-- A `finish` event carries the result of a completed `worker.run()`, whose
status is terminal — in particular not RUNNING. -/
def validEventB : PoolEvent → Bool
  | .finish _ r => !statusIsRunning r.status
  | _ => true

/-- Replay a sequence of pool events. -/
def runEvents (p : TransferPool) (es : List PoolEvent) : TransferPool :=
  es.foldl TransferPool.step p

/-- `TransferPool.__init__(max_workers)`. -/
def initPool (n : Nat) : TransferPool :=
  ⟨n, [], [], []⟩

/-- Pool invariant: the in-flight path set is duplicate-free, the recorded
workers have pairwise distinct source paths, and every recorded worker's
path is in the in-flight set. -/
def PoolInv (p : TransferPool) : Prop :=
  p.in_flight_paths.Nodup ∧ (p.workers.map PoolWorker.source_path).Nodup ∧
    ∀ q, q ∈ p.workers.map PoolWorker.source_path → q ∈ p.in_flight_paths

/-! ## balance.py: stats and error escalation -/

/-- `BalanceStats` dataclass. -/
structure BalanceStats where
  files_moved : Nat
  bytes_transferred : Nat
  errors : Nat
deriving DecidableEq

/-- `BalanceStats.add_result`: Completed bumps `files_moved` and
`bytes_transferred`; Failed bumps `errors`; anything else changes nothing. -/
def BalanceStats.add_result (s : BalanceStats) (r : TransferResult) : BalanceStats :=
  match r.status with
  | .completed =>
    { s with files_moved := s.files_moved + 1,
             bytes_transferred := s.bytes_transferred + r.bytes_transferred }
  | .failed => { s with errors := s.errors + 1 }
  | _ => s

/-- The two configuration fields consulted by the escalation policy. -/
structure EscalationConfig where
  error_threshold : Nat
  abort_on_error : Bool
deriving DecidableEq

/-- Coordinator-side escalation state: `_consecutive_errors`, the
`_shutdown` event, whether `transfer_pool.cancel_all()` has been invoked,
and whether the interactive prompt has been requested (the prompt itself is
interactive IO and is not modelled further). -/
structure CoordinatorState where
  consecutive_errors : Nat
  shutdown : Bool
  cancel_all_called : Bool
  prompt_requested : Bool
  stats : BalanceStats
deriving DecidableEq

/-- Fresh coordinator state. -/
def initCoordinatorState : CoordinatorState :=
  ⟨0, false, false, false, ⟨0, 0, 0⟩⟩

/-- `BalanceCoordinator._check_error_threshold`. -/
def checkErrorThreshold (cfg : EscalationConfig) (s : CoordinatorState) : CoordinatorState :=
  if s.consecutive_errors < cfg.error_threshold then s
  else if cfg.abort_on_error then { s with shutdown := true, cancel_all_called := true }
  else { s with prompt_requested := true }

/-- `BalanceCoordinator._handle_transfer_result`: Completed resets the
consecutive-error counter, Failed increments it and consults the
threshold check; other statuses are ignored. -/
def handleTransferResult (cfg : EscalationConfig) (s : CoordinatorState)
    (r : TransferResult) : CoordinatorState :=
  match r.status with
  | .completed => { s with consecutive_errors := 0 }
  | .failed =>
    checkErrorThreshold cfg { s with consecutive_errors := s.consecutive_errors + 1 }
  | _ => s

/-- The `on_complete` callback built in `_balance_loop`: fold the result
into `BalanceStats`, then run `_handle_transfer_result` (the write-lock
release concerns the drive manager, not this state). -/
def onCompleteFold (cfg : EscalationConfig) (s : CoordinatorState)
    (r : TransferResult) : CoordinatorState :=
  handleTransferResult cfg { s with stats := s.stats.add_result r } r

/-- Feed a sequence of transfer results to the coordinator. -/
def foldResults (cfg : EscalationConfig) (s : CoordinatorState)
    (rs : List TransferResult) : CoordinatorState :=
  rs.foldl (onCompleteFold cfg) s

/-- `_balance_loop`'s exit code: `0 if self.stats.errors == 0 else 1`. -/
def balanceExitCode (s : BalanceStats) : Nat :=
  if s.errors = 0 then 0 else 1

/-! ## cli.py: parse_size -/

/-- Python `str.strip()` on a character list. -/
def pyStrip (cs : List Char) : List Char :=
  ((cs.dropWhile Char.isWhitespace).reverse.dropWhile Char.isWhitespace).reverse

/-- Value of a digit string (callers pass strings of decimal digits). -/
def digitsToNat (ds : List Char) : Nat :=
  ds.foldl (fun n c => 10 * n + (c.toNat - 48)) 0

/-- Membership in the regex class `[A-Z]`. -/
def isUpperAlpha (c : Char) : Bool :=
  decide ('A' ≤ c ∧ c ≤ 'Z')

/-- Tail of the size pattern, `\s*([A-Z]*)$`, applied after the number:
succeeds only when nothing but the optional unit remains. -/
def sizeTail (intPart frac rest : List Char) : Option (List Char × List Char × List Char) :=
  let rest2 := rest.dropWhile Char.isWhitespace
  let unit := rest2.takeWhile isUpperAlpha
  let rest3 := rest2.dropWhile isUpperAlpha
  if rest3.isEmpty then some (intPart, frac, unit) else none

/-- The anchored regex `^(\d+(?:\.\d+)?)\s*([A-Z]*)$` of `parse_size`,
returning the integer digits, the fractional digits (empty when the
number has no decimal point) and the unit letters.  Greedy matching is
complete here because the character classes of adjacent pieces are
disjoint. -/
def matchSizePattern (cs : List Char) : Option (List Char × List Char × List Char) :=
  let intPart := cs.takeWhile Char.isDigit
  let rest := cs.dropWhile Char.isDigit
  if intPart.isEmpty then none
  else
    match rest with
    | '.' :: rest2 =>
      let frac := rest2.takeWhile Char.isDigit
      let rest3 := rest2.dropWhile Char.isDigit
      if frac.isEmpty then none else sizeTail intPart frac rest3
    | _ => sizeTail intPart [] rest

/-- The `unit_multipliers` dict of `parse_size` (all powers of 1024). -/
def sizeUnitMultiplier : List Char → Option Nat
  | [] => some 1
  | ['B'] => some 1
  | ['K'] => some 1024
  | ['K', 'B'] => some 1024
  | ['K', 'I', 'B'] => some 1024
  | ['M'] => some (1024 ^ 2)
  | ['M', 'B'] => some (1024 ^ 2)
  | ['M', 'I', 'B'] => some (1024 ^ 2)
  | ['G'] => some (1024 ^ 3)
  | ['G', 'B'] => some (1024 ^ 3)
  | ['G', 'I', 'B'] => some (1024 ^ 3)
  | ['T'] => some (1024 ^ 4)
  | ['T', 'B'] => some (1024 ^ 4)
  | ['T', 'I', 'B'] => some (1024 ^ 4)
  | ['P'] => some (1024 ^ 5)
  | ['P', 'B'] => some (1024 ^ 5)
  | ['P', 'I', 'B'] => some (1024 ^ 5)
  | _ => none

/-- `parse_size` from cli.py: strip, uppercase, match the pattern, look up
the unit, and truncate `value * multiplier` to an integer.  The decimal
number `value = i + f / 10^k` (with `i` the integer digits, `f` the
fractional digits, `k` their count) is modelled exactly, so the truncated
product `int(value * multiplier)` is the exact floor
`(i * mult * 10^k + f * mult) / 10^k` in natural-number division
(`float` rounding is below the granularity of the verified examples, and
the parsed number is never negative). -/
def parse_size (s : String) : Except String Nat :=
  let cs := (pyStrip s.data).map Char.toUpper
  if cs.isEmpty then .error "Empty size string"
  else
    match matchSizePattern cs with
    | none => .error "Invalid size format"
    | some (intPart, frac, unit) =>
      match sizeUnitMultiplier unit with
      | none => .error "Unknown size unit"
      | some mult =>
        .ok ((digitsToNat intPart * mult * 10 ^ frac.length + digitsToNat frac * mult) /
              10 ^ frac.length)

/-! ## transfer.py: parse_rsync_progress -/

/-- Membership in the regex class `[\d,]`. -/
def isDigitOrComma (c : Char) : Bool :=
  c.isDigit || c == ','

/-- Membership in the regex class `[\d.]`. -/
def isDigitOrDot (c : Char) : Bool :=
  c.isDigit || c == '.'

/-- The five capture groups of the rsync progress pattern
`^\s*([\d,]+)\s+(\d+)%\s+([\d.]+)([KMG]?B)/s\s+(\d+:\d+:\d+|\d+:\d+)?`. -/
structure RsyncGroups where
  g1 : List Char
  g2 : List Char
  g3 : List Char
  g4 : List Char
  g5 : Option (List (List Char))
deriving DecidableEq

/-- The `([KMG]?B)/s` piece (the greedy optional `[KMG]` resolves first). -/
def matchSpeedUnit : List Char → Option (List Char × List Char)
  | 'K' :: 'B' :: '/' :: 's' :: rest => some (['K', 'B'], rest)
  | 'M' :: 'B' :: '/' :: 's' :: rest => some (['M', 'B'], rest)
  | 'G' :: 'B' :: '/' :: 's' :: rest => some (['G', 'B'], rest)
  | 'B' :: '/' :: 's' :: rest => some (['B'], rest)
  | _ => none

/-- The optional ETA group `(\d+:\d+:\d+|\d+:\d+)?`, split at the colons. -/
def matchEtaGroup (cs : List Char) : Option (List (List Char)) :=
  let d1 := cs.takeWhile Char.isDigit
  let r1 := cs.dropWhile Char.isDigit
  if d1.isEmpty then none
  else
    match r1 with
    | ':' :: r2 =>
      let d2 := r2.takeWhile Char.isDigit
      let r3 := r2.dropWhile Char.isDigit
      if d2.isEmpty then none
      else
        match r3 with
        | ':' :: r4 =>
          let d3 := r4.takeWhile Char.isDigit
          if d3.isEmpty then some [d1, d2] else some [d1, d2, d3]
        | _ => some [d1, d2]
    | _ => none

/-- `re.match` of the progress pattern (anchored at the start only; trailing
input is irrelevant).  Greedy matching without backtracking is complete
because adjacent character classes are disjoint. -/
def matchProgressLine (cs0 : List Char) : Option RsyncGroups :=
  let cs1 := cs0.dropWhile Char.isWhitespace
  let g1 := cs1.takeWhile isDigitOrComma
  let cs2 := cs1.dropWhile isDigitOrComma
  if g1.isEmpty then none
  else if (cs2.takeWhile Char.isWhitespace).isEmpty then none
  else
    let cs3 := cs2.dropWhile Char.isWhitespace
    let g2 := cs3.takeWhile Char.isDigit
    let cs4 := cs3.dropWhile Char.isDigit
    if g2.isEmpty then none
    else
      match cs4 with
      | '%' :: cs5 =>
        if (cs5.takeWhile Char.isWhitespace).isEmpty then none
        else
          let cs6 := cs5.dropWhile Char.isWhitespace
          let g3 := cs6.takeWhile isDigitOrDot
          let cs7 := cs6.dropWhile isDigitOrDot
          if g3.isEmpty then none
          else
            match matchSpeedUnit cs7 with
            | none => none
            | some (g4, cs8) =>
              if (cs8.takeWhile Char.isWhitespace).isEmpty then none
              else some ⟨g1, g2, g3, g4, matchEtaGroup (cs8.dropWhile Char.isWhitespace)⟩
      | _ => none

/-- Python `int(s)` on a string drawn from `[\d,]+` after comma removal:
fails exactly on the empty string. -/
def pyIntOfDigits (ds : List Char) : Except String Nat :=
  if ds.isEmpty then .error "ValueError: invalid literal for int" else .ok (digitsToNat ds)

/-- Python `float(s)` on a string drawn from `[\d.]+`: fails on more than
one dot or on a lone dot, otherwise the exact decimal value. -/
def pyFloatOfDigitsDots (ds : List Char) : Except String ℚ :=
  let intPart := ds.takeWhile Char.isDigit
  let rest := ds.dropWhile Char.isDigit
  match rest with
  | [] =>
    if intPart.isEmpty then .error "ValueError: could not convert string to float"
    else .ok (digitsToNat intPart : ℚ)
  | _ :: frac =>
    if frac.all Char.isDigit then
      if intPart.isEmpty && frac.isEmpty then
        .error "ValueError: could not convert string to float"
      else .ok ((digitsToNat intPart : ℚ) + (digitsToNat frac : ℚ) / (10 : ℚ) ^ frac.length)
    else .error "ValueError: could not convert string to float"

/-- The `unit_multipliers` dict of `parse_rsync_progress`, with the
`.get(unit, 1)` default.  The multiplier only ever enters the float
product `speed_num * multiplier`, so it is given here as a rational. -/
def speedUnitMultiplier : List Char → ℚ
  | ['B'] => 1
  | ['K', 'B'] => 1024
  | ['M', 'B'] => 1024 ^ 2
  | ['G', 'B'] => 1024 ^ 3
  | _ => 1

/-- ETA computation from the colon-split parts of group 5, as in the
`len(parts)` dispatch of `parse_rsync_progress`. -/
def etaSecondsOfParts : Option (List (List Char)) → Option Nat
  | some [a, b] => some (digitsToNat a * 60 + digitsToNat b)
  | some [a, b, c] => some (digitsToNat a * 3600 + digitsToNat b * 60 + digitsToNat c)
  | _ => none

/-- `parse_rsync_progress` from transfer.py.  A non-matching line yields
`ok none` (the caller ignores it); a matching line yields a
`TransferProgress`, except that the `int` / `float` conversions of the
captured groups can raise `ValueError`, which propagates. -/
def parse_rsync_progress (line : String) : Except String (Option TransferProgress) :=
  match matchProgressLine line.data with
  | none => .ok none
  | some g =>
    match pyIntOfDigits (g.g1.filter (fun c => !(c == ','))) with
    | .error e => .error e
    | .ok bytes =>
      match pyFloatOfDigitsDots g.g3 with
      | .error e => .error e
      | .ok speedNum =>
        .ok (some
          { bytes_transferred := bytes,
            total_bytes := 0,
            percent := (digitsToNat g.g2 : ℚ),
            speed_bytes_per_sec := speedNum * speedUnitMultiplier g.g4,
            eta_seconds := etaSecondsOfParts g.g5 })

/-! ## Concrete instances used by the scenario theorems and witnesses -/

/-- One gibibyte. -/
def GiB : Nat := 1024 ^ 3

/-- disk1 of the three-drive scenario (tests/conftest.py): 1 TB drive at
80% used. -/
def disk1C4 : Drive :=
  { path := "/mnt/disk1",
    stats := { path := "/mnt/disk1", total_bytes := 1000 * GiB,
               used_bytes := 800 * GiB, free_bytes := 200 * GiB } }

/-- disk2: 1 TB drive at 30% used. -/
def disk2C4 : Drive :=
  { path := "/mnt/disk2",
    stats := { path := "/mnt/disk2", total_bytes := 1000 * GiB,
               used_bytes := 300 * GiB, free_bytes := 700 * GiB } }

/-- disk3: 2 TB drive at 50% used (1 TB free). -/
def disk3C4 : Drive :=
  { path := "/mnt/disk3",
    stats := { path := "/mnt/disk3", total_bytes := 2000 * GiB,
               used_bytes := 1000 * GiB, free_bytes := 1000 * GiB } }

/-- The three-drive pool, every drive usable as source and destination. -/
def dmC4 : DriveManager :=
  { source_paths := ["/mnt/disk1", "/mnt/disk2", "/mnt/disk3"],
    dest_paths := ["/mnt/disk1", "/mnt/disk2", "/mnt/disk3"],
    drives := [disk1C4, disk2C4, disk3C4] }

/-- Escalation configuration of scenario C3: threshold 3, abort on error. -/
def cfgC3 : EscalationConfig := ⟨3, true⟩

/-- A Failed transfer result. -/
def failedResultC3 : TransferResult :=
  { source_path := "/mnt/disk1/a", dest_path := "/mnt/disk3/a",
    status := .failed, error_message := some "rsync exited with code 23" }

/-- A Completed transfer result. -/
def completedResultW : TransferResult :=
  { source_path := "a", dest_path := "b", status := .completed, bytes_transferred := 5 }

/-- A Cancelled transfer result. -/
def cancelledResultW : TransferResult :=
  { source_path := "a", dest_path := "b", status := .cancelled }

/-- A nontrivial stats value. -/
def statsW : BalanceStats := ⟨2, 100, 1⟩

/-- A pool event trace: submit, start and finish one worker. -/
def es0 : List PoolEvent :=
  [.submit "a", .start "a", .finish "a" completedResultW]

/-- A pending, uncancelled worker. -/
def workerW : WorkerState :=
  { source_path := "a", dest_path := "b", file_size := 7, dry_run := false,
    status := .pending, cancelledFlag := false }

/-- A single unlocked drive. -/
def driveW : Drive :=
  { path := "/mnt/w",
    stats := { path := "/mnt/w", total_bytes := 100, used_bytes := 10, free_bytes := 90 } }

/-- A one-drive manager. -/
def dmW : DriveManager :=
  { source_paths := ["/mnt/w"], dest_paths := ["/mnt/w"], drives := [driveW] }

/-! ## Theorems -/

deriving instance DecidableEq for Except

set_option maxRecDepth 100000

section

/- The Batteries rational-number operations are `@[irreducible]`, which
blocks `decide` from evaluating closed rational arithmetic; for the
concrete-scenario proofs below they are made unfoldable again, locally. -/
attribute [local semireducible] Rat.mul Rat.add Rat.sub Rat.inv

/-- Claim C1 (code bug): the coordinator's destination-selection step —
`self.drive_manager.get_best_destination(exclude_busy=True)` at
balance.py line 209 — omits the required positional `target_percentage`,
so for every drive-manager state the embedded call raises TypeError
instead of returning a drive or none. -/
theorem coordinator_destination_call_raises (dm : DriveManager) :
    coordinatorSelectDestination dm =
      .error "TypeError: get_best_destination() missing 1 required positional argument: target_percentage" :=
  rfl

/-- Claim C4: in the three-drive pool (1 TB at 80 %, 1 TB at 30 %, 2 TB at
50 %) with tolerance 2.0, the capacity-weighted average usage is 52.5 %,
the overfull set is exactly disk1, the underfull set is disk3 then disk2
(sorted by free bytes descending, disk3 having 1 TB free), and disk3 is
the best destination. -/
theorem three_drive_pool_scenario :
    dmC4.get_average_usage = 105 / 2
  ∧ (dmC4.get_overfull_drives 2).map Drive.path = ["/mnt/disk1"]
  ∧ (dmC4.get_underfull_drives 2).map Drive.path = ["/mnt/disk3", "/mnt/disk2"]
  ∧ (dmC4.get_best_destination 2 true).map Drive.path = some "/mnt/disk3"
  ∧ disk3C4.stats.free_bytes = 1000 * GiB := by
  decide

/-- Claim C6: the size parser is case-insensitive and whitespace-tolerant
with binary (1024-based) units, and rejects malformed input, negative
numbers and unknown units — verified on all the particular inputs the
claim lists. -/
theorem parse_size_examples :
    parse_size "100M" = .ok (100 * 1024 ^ 2)
  ∧ parse_size "1.5G" = .ok 1610612736
  ∧ parse_size "1TiB" = .ok (1024 ^ 4)
  ∧ parse_size " 100 MB " = .ok (100 * 1024 ^ 2)
  ∧ (parse_size "abc").toOption = none
  ∧ (parse_size "-100M").toOption = none
  ∧ (parse_size "100X").toOption = none
  ∧ parse_size "1g" = .ok 1073741824
  ∧ parse_size "1G" = .ok 1073741824
  ∧ parse_size " 1 G " = .ok 1073741824 := by
  decide

/-- Claim C10: folding a Cancelled result into `BalanceStats` changes
nothing; `files_moved` and `bytes_transferred` change only on Completed
results (by one file and by the result's byte count) and `errors` changes
only on Failed results (by one). -/
theorem add_result_frame (s : BalanceStats) (r : TransferResult) :
    (r.status = .cancelled → s.add_result r = s)
  ∧ ((s.add_result r).files_moved ≠ s.files_moved → r.status = .completed)
  ∧ ((s.add_result r).bytes_transferred ≠ s.bytes_transferred → r.status = .completed)
  ∧ ((s.add_result r).errors ≠ s.errors → r.status = .failed)
  ∧ (r.status = .completed →
      s.add_result r = { s with files_moved := s.files_moved + 1,
                                bytes_transferred := s.bytes_transferred + r.bytes_transferred })
  ∧ (r.status = .failed → s.add_result r = { s with errors := s.errors + 1 }) := by
  cases hr : r.status <;> simp [BalanceStats.add_result, hr]

/-- Witness for C10: a Cancelled result leaves a concrete stats value
untouched. -/
theorem add_result_frame_witness :
    cancelledResultW.status = .cancelled ∧ statsW.add_result cancelledResultW = statsW :=
  ⟨rfl, (add_result_frame statsW cancelledResultW).1 rfl⟩

/-- Claim C3: a Completed result resets the consecutive-error counter, a
Failed result increments it, and with threshold 3 and abort-on-error set,
three consecutive Failed results set the shutdown flag, invoke cancel-all
and make the run exit with code 1. -/
theorem error_escalation_policy :
    (∀ (cfg : EscalationConfig) (s : CoordinatorState) (r : TransferResult),
        r.status = .completed → (handleTransferResult cfg s r).consecutive_errors = 0)
  ∧ (∀ (cfg : EscalationConfig) (s : CoordinatorState) (r : TransferResult),
        r.status = .failed →
        (handleTransferResult cfg s r).consecutive_errors = s.consecutive_errors + 1)
  ∧ ((foldResults cfgC3 initCoordinatorState
        [failedResultC3, failedResultC3, failedResultC3]).shutdown = true
      ∧ (foldResults cfgC3 initCoordinatorState
          [failedResultC3, failedResultC3, failedResultC3]).cancel_all_called = true
      ∧ balanceExitCode (foldResults cfgC3 initCoordinatorState
          [failedResultC3, failedResultC3, failedResultC3]).stats = 1) := by
  refine ⟨?_, ?_, by decide⟩
  · intro cfg s r hr
    simp [handleTransferResult, hr]
  · intro cfg s r hr
    simp only [handleTransferResult, hr, checkErrorThreshold]
    split
    · rfl
    · split <;> rfl

/-- Witness for C3: the reset and increment clauses applied to concrete
results and a concrete coordinator state. -/
theorem error_escalation_policy_witness :
    completedResultW.status = .completed
  ∧ failedResultC3.status = .failed
  ∧ (handleTransferResult cfgC3 initCoordinatorState completedResultW).consecutive_errors = 0
  ∧ (handleTransferResult cfgC3 initCoordinatorState failedResultC3).consecutive_errors = 0 + 1 :=
  ⟨rfl, rfl,
    error_escalation_policy.1 cfgC3 initCoordinatorState completedResultW rfl,
    error_escalation_policy.2.1 cfgC3 initCoordinatorState failedResultC3 rfl⟩

/-- Claim C9: a zero-capacity drive has usage 0 (no division error), the
capacity-weighted average is 0 when total capacity is 0, and a single-drive
pool has usage range 0, hence is balanced for every positive tolerance. -/
theorem zero_capacity_and_single_drive (s : DriveStats) (dm : DriveManager)
    (sp dp : List String) (d : Drive) (p : ℚ)
    (hs : s.total_bytes = 0)
    (hcap : (dm.drives.map (fun e => e.stats.total_bytes)).sum = 0)
    (hp : 0 < p) :
    s.usage_percent = 0
  ∧ dm.get_average_usage = 0
  ∧ (DriveManager.mk sp dp [d]).get_usage_range = 0
  ∧ (DriveManager.mk sp dp [d]).is_balanced p = true := by
  refine ⟨?_, ?_, ?_, ?_⟩
  · simp [DriveStats.usage_percent, hs]
  · simp [DriveManager.get_average_usage, hcap]
  · simp [DriveManager.get_usage_range, listMaxQ, listMinQ]
  · have hr : (DriveManager.mk sp dp [d]).get_usage_range = 0 := by
      simp [DriveManager.get_usage_range, listMaxQ, listMinQ]
    simp only [DriveManager.is_balanced, hr, decide_eq_true_eq]
    exact le_of_lt hp

/-- Witness for C9: a concrete zero-capacity drive and the one-drive
manager `dmW`. -/
theorem zero_capacity_and_single_drive_witness :
    (DriveStats.mk "/z" 0 0 0).total_bytes = 0
  ∧ ((DriveManager.mk ["/z"] ["/z"] [Drive.mk "/z" (DriveStats.mk "/z" 0 0 0) false]).drives.map
      (fun e => e.stats.total_bytes)).sum = 0
  ∧ (0 : ℚ) < 2
  ∧ ((DriveStats.mk "/z" 0 0 0).usage_percent = 0
      ∧ (DriveManager.mk ["/z"] ["/z"] [Drive.mk "/z" (DriveStats.mk "/z" 0 0 0) false]).get_average_usage = 0
      ∧ (DriveManager.mk ["/mnt/w"] ["/mnt/w"] [driveW]).get_usage_range = 0
      ∧ (DriveManager.mk ["/mnt/w"] ["/mnt/w"] [driveW]).is_balanced 2 = true) :=
  ⟨rfl, by decide, by decide,
    zero_capacity_and_single_drive (DriveStats.mk "/z" 0 0 0)
      (DriveManager.mk ["/z"] ["/z"] [Drive.mk "/z" (DriveStats.mk "/z" 0 0 0) false])
      ["/mnt/w"] ["/mnt/w"] driveW 2 rfl (by decide) (by decide)⟩

/-- Looking up `p` after flipping its lock flag finds the flipped entry. -/
theorem find_setDriveLock (ds : List Drive) (p : String) (b : Bool) :
    findDriveList (setDriveLock ds p b) p
      = (findDriveList ds p).map (fun d => { d with write_locked := b }) := by
  induction ds with
  | nil => rfl
  | cons e ds ih =>
    by_cases h : e.path = p
    · simp [setDriveLock, findDriveList, h]
    · simp [setDriveLock, findDriveList, h, ih]

/-- Flipping the same lock flag twice is the same as flipping it once. -/
theorem setDriveLock_idem (ds : List Drive) (p : String) (b : Bool) :
    setDriveLock (setDriveLock ds p b) p b = setDriveLock ds p b := by
  induction ds with
  | nil => rfl
  | cons e ds ih =>
    by_cases h : e.path = p <;> simp [setDriveLock, h, ih]

/-- Claim C8: for a drive path known to the manager, `acquire_write_lock`
succeeds exactly when the flag was clear and sets it; a second acquire
without a release fails; `release_write_lock` clears the flag and is
idempotent; and an acquire after a release succeeds. -/
theorem write_lock_protocol (dm : DriveManager) (p : String) (d : Drive)
    (hfind : dm.findDrive p = some d) :
    ((dm.acquire_write_lock p).1 = !d.write_locked)
  ∧ (d.write_locked = false →
       (dm.acquire_write_lock p).2.findDrive p = some { d with write_locked := true })
  ∧ (d.write_locked = false →
       ((dm.acquire_write_lock p).2.acquire_write_lock p).1 = false)
  ∧ ((dm.release_write_lock p).release_write_lock p = dm.release_write_lock p)
  ∧ ((dm.release_write_lock p).findDrive p = some { d with write_locked := false })
  ∧ (((dm.release_write_lock p).acquire_write_lock p).1 = true) := by
  have hfind' : findDriveList dm.drives p = some d := hfind
  refine ⟨?_, ?_, ?_, ?_, ?_, ?_⟩
  · cases hw : d.write_locked <;>
      simp [DriveManager.acquire_write_lock, hfind, hw]
  · intro hw
    simp only [DriveManager.acquire_write_lock, hfind, hw]
    simp [DriveManager.findDrive, find_setDriveLock, hfind']
  · intro hw
    simp only [DriveManager.acquire_write_lock, hfind, hw]
    simp [DriveManager.acquire_write_lock, DriveManager.findDrive, find_setDriveLock, hfind']
  · simp only [DriveManager.release_write_lock, hfind]
    simp [DriveManager.findDrive, find_setDriveLock, hfind', setDriveLock_idem]
  · simp only [DriveManager.release_write_lock, hfind]
    simp [DriveManager.findDrive, find_setDriveLock, hfind']
  · simp only [DriveManager.release_write_lock, hfind]
    simp [DriveManager.acquire_write_lock, DriveManager.findDrive, find_setDriveLock, hfind']

/-- Witness for C8: the one-drive manager `dmW`, whose single drive starts
unlocked. -/
theorem write_lock_protocol_witness :
    dmW.findDrive "/mnt/w" = some driveW
  ∧ (dmW.acquire_write_lock "/mnt/w").1 = !driveW.write_locked :=
  ⟨by decide, (write_lock_protocol dmW "/mnt/w" driveW (by decide)).1⟩

/-- Claim C7: a cancel received while the worker is Pending makes the
subsequent `run` go straight to Cancelled (never entering Running) and emit
exactly one Cancelled result; `cancel` itself never changes `status`, so a
terminal status is sticky; and an uncancelled `run` enters Running and ends
in a terminal (non-Pending, non-Running) status. -/
theorem worker_cancel_pending_run (w : WorkerState) (out : RsyncOutcome)
    (hw : w.status = .pending) :
    (((w.cancel).run out).worker.status = .cancelled)
  ∧ (TransferStatus.running ∉ ((w.cancel).run out).statuses_entered)
  ∧ (((w.cancel).run out).emitted = [((w.cancel).run out).ret])
  ∧ (((w.cancel).run out).ret.status = .cancelled)
  ∧ (∀ w2 : WorkerState, (WorkerState.cancel w2).status = w2.status)
  ∧ (∀ (w3 : WorkerState) (o3 : RsyncOutcome), w3.cancelledFlag = false →
       ((w3.run o3).statuses_entered = [.running, (w3.run o3).ret.status]
        ∧ (w3.run o3).ret.status ≠ .pending ∧ (w3.run o3).ret.status ≠ .running)) := by
  refine ⟨?_, ?_, ?_, ?_, ?_, ?_⟩
  · simp [WorkerState.run, WorkerState.cancel]
  · simp [WorkerState.run, WorkerState.cancel]
  · simp [WorkerState.run, WorkerState.cancel]
  · simp [WorkerState.run, WorkerState.cancel]
  · intro w2
    rfl
  · intro w3 o3 h3
    refine ⟨by simp [WorkerState.run, h3], ?_, ?_⟩ <;>
      by_cases hd : w3.dry_run <;>
        cases o3 <;> simp [WorkerState.run, h3, hd, runRsyncResult]

/-- Witness for C7: the concrete pending worker `workerW`, cancelled and
then run against a child that would have succeeded. -/
theorem worker_cancel_pending_run_witness :
    workerW.status = .pending
  ∧ ((workerW.cancel).run .success).worker.status = .cancelled :=
  ⟨rfl, (worker_cancel_pending_run workerW .success rfl).1⟩

/-- Counterexample to claim C5 as stated: this line matches the progress
pattern (its byte group is a bare comma), yet the parser raises ValueError
from `int` instead of returning a TransferProgress. -/
theorem progress_match_valueerror :
    parse_rsync_progress "  ,  5%  1.0B/s  0:01"
      = .error "ValueError: invalid literal for int"
  ∧ (matchProgressLine ("  ,  5%  1.0B/s  0:01".data)).isSome = true := by
  decide

/-- Claim C5 (amended): the stated concrete line parses to the stated
TransferProgress; every non-matching line yields none; and on any match
whose byte group converts with `int` and whose speed group converts with
`float`, the parser returns the TransferProgress built from the groups
(comma-stripped bytes, integer percent, unit-scaled speed, colon-split
ETA). -/
theorem progress_line_grammar :
    (parse_rsync_progress "  1,234,567  50%   12.34MB/s    0:01:23"
       = .ok (some { bytes_transferred := 1234567, total_bytes := 0, percent := 50,
                     speed_bytes_per_sec := 1234 / 100 * 1024 ^ 2, eta_seconds := some 83 }))
  ∧ (∀ line : String, matchProgressLine line.data = none →
       parse_rsync_progress line = .ok none)
  ∧ (∀ (line : String) (g : RsyncGroups) (b : Nat) (q : ℚ),
       matchProgressLine line.data = some g →
       pyIntOfDigits (g.g1.filter (fun c => !(c == ','))) = .ok b →
       pyFloatOfDigitsDots g.g3 = .ok q →
       parse_rsync_progress line = .ok (some
         { bytes_transferred := b, total_bytes := 0,
           percent := (digitsToNat g.g2 : ℚ),
           speed_bytes_per_sec := q * speedUnitMultiplier g.g4,
           eta_seconds := etaSecondsOfParts g.g5 }))
  ∧ parse_rsync_progress "sending incremental file list" = .ok none := by
  refine ⟨by decide, ?_, ?_, by decide⟩
  · intro line h
    simp [parse_rsync_progress, h]
  · intro line g b q h1 h2 h3
    simp [parse_rsync_progress, h1, h2, h3]

/-- Witness for C5 (amended): a concrete non-matching line yields none. -/
theorem progress_line_grammar_witness :
    matchProgressLine "hello".data = none ∧ parse_rsync_progress "hello" = .ok none :=
  ⟨by decide, progress_line_grammar.2.1 "hello" (by decide)⟩

/-- Reassigning a worker status never changes the recorded source paths. -/
theorem map_sourcePath_setWorkerStatus (ws : List PoolWorker) (path : String)
    (st : TransferStatus) :
    (setWorkerStatus ws path st).map PoolWorker.source_path
      = ws.map PoolWorker.source_path := by
  induction ws with
  | nil => rfl
  | cons w ws ih =>
    by_cases h : w.source_path = path <;> simp [setWorkerStatus, h] <;>
      simpa [setWorkerStatus] using ih

/-- The fresh pool satisfies the bookkeeping invariant. -/
theorem poolInv_initPool (n : Nat) : PoolInv (initPool n) :=
  ⟨List.nodup_nil, List.nodup_nil, by simp [initPool]⟩

/-- Every pool event preserves the bookkeeping invariant (for `finish`
events carrying a terminal result, as `worker.run` guarantees). -/
theorem poolInv_step (p : TransferPool) (e : PoolEvent)
    (hInv : PoolInv p) (hv : validEventB e = true) : PoolInv (p.step e) := by
  obtain ⟨h1, h2, h3⟩ := hInv
  cases e with
  | submit path =>
    show PoolInv (p.submit ⟨path, .pending⟩).2
    by_cases hc : p.has_capacity = false
    · have hid : (p.submit ⟨path, .pending⟩).2 = p := by
        simp [TransferPool.submit, hc]
      rw [hid]
      exact ⟨h1, h2, h3⟩
    · by_cases hm : path ∈ p.in_flight_paths
      · have hid : (p.submit ⟨path, .pending⟩).2 = p := by
          simp [TransferPool.submit, hc, hm]
        rw [hid]
        exact ⟨h1, h2, h3⟩
      · have hid : (p.submit ⟨path, .pending⟩).2 =
            { p with in_flight_paths := path :: p.in_flight_paths,
                     workers := p.workers ++ [⟨path, .pending⟩] } := by
          simp [TransferPool.submit, hc, hm]
        rw [hid]
        have hpw : path ∉ p.workers.map PoolWorker.source_path := fun hmem => hm (h3 _ hmem)
        refine ⟨List.nodup_cons.mpr ⟨hm, h1⟩, ?_, ?_⟩
        · simp only [List.map_append, List.map_cons, List.map_nil]
          rw [List.nodup_append]
          exact ⟨h2, List.nodup_singleton _, by simpa [List.disjoint_singleton] using hpw⟩
        · intro q hq
          simp only [List.map_append, List.map_cons, List.map_nil, List.mem_append,
            List.mem_singleton] at hq
          rcases hq with hq | hq
          · exact List.mem_cons_of_mem _ (h3 _ hq)
          · simp [hq]
  | start path =>
    refine ⟨h1, ?_, ?_⟩
    · show ((setWorkerStatus p.workers path .running).map PoolWorker.source_path).Nodup
      rw [map_sourcePath_setWorkerStatus]
      exact h2
    · intro q hq
      rw [show (p.step (.start path)).workers = setWorkerStatus p.workers path .running from rfl,
        map_sourcePath_setWorkerStatus] at hq
      exact h3 q hq
  | finish path r =>
    have hterm : statusIsRunning r.status = false := by
      simpa [validEventB] using hv
    refine ⟨List.Nodup.filter _ h1, ?_, ?_⟩
    · show (((setWorkerStatus p.workers path r.status).filter
          (fun w => statusIsRunning w.status)).map PoolWorker.source_path).Nodup
      have hsub : List.Sublist
          (((setWorkerStatus p.workers path r.status).filter
            (fun w => statusIsRunning w.status)).map PoolWorker.source_path)
          ((setWorkerStatus p.workers path r.status).map PoolWorker.source_path) :=
        List.Sublist.map _ (List.filter_sublist _)
      refine hsub.nodup ?_
      rw [map_sourcePath_setWorkerStatus]
      exact h2
    · intro q hq
      simp only [TransferPool.step] at hq ⊢
      rw [List.mem_map] at hq
      obtain ⟨w, hw, rfl⟩ := hq
      rw [List.mem_filter] at hw
      obtain ⟨hwmem, hwrun⟩ := hw
      rw [setWorkerStatus, List.mem_map] at hwmem
      obtain ⟨w0, hw0, hweq⟩ := hwmem
      by_cases h0 : w0.source_path = path
      · exfalso
        rw [if_pos h0] at hweq
        rw [← hweq] at hwrun
        simp only at hwrun
        rw [hwrun] at hterm
        exact absurd hterm (by simp)
      · rw [if_neg h0] at hweq
        subst hweq
        have hq0 : w0.source_path ∈ p.in_flight_paths :=
          h3 _ (List.mem_map_of_mem _ hw0)
        rw [List.mem_filter]
        exact ⟨hq0, by simp [h0]⟩

/-- The invariant holds in every state reachable by a valid event trace. -/
theorem poolInv_runEvents (es : List PoolEvent) (p : TransferPool)
    (hInv : PoolInv p) (hv : ∀ e ∈ es, validEventB e = true) :
    PoolInv (runEvents p es) := by
  induction es generalizing p with
  | nil => exact hInv
  | cons e es ih =>
    have hstep := poolInv_step p e hInv (hv e (List.mem_cons_self e es))
    have htail := ih (p.step e) hstep (fun x hx => hv x (List.mem_cons_of_mem e hx))
    simpa [runEvents] using htail

/-- Claim C2: `submit` returns false exactly when the pool has no free slot
(`active_count ≥ max_workers`) or the source path is already in flight, and
otherwise records the path; in every reachable pool state no source path is
referenced by two in-flight workers (worker paths are duplicate-free); and
recording a finished worker's result removes its path from the in-flight
set. -/
theorem transfer_pool_no_duplicate_paths :
    (∀ (p : TransferPool) (w : PoolWorker),
       (p.submit w).1 = false
         ↔ (p.max_workers ≤ p.active_count ∨ w.source_path ∈ p.in_flight_paths))
  ∧ (∀ (p : TransferPool) (w : PoolWorker),
       (p.submit w).1 = true → w.source_path ∈ (p.submit w).2.in_flight_paths)
  ∧ (∀ (n : Nat) (es : List PoolEvent), (∀ e ∈ es, validEventB e = true) →
       ((runEvents (initPool n) es).workers.map PoolWorker.source_path).Nodup
       ∧ (runEvents (initPool n) es).in_flight_paths.Nodup)
  ∧ (∀ (p : TransferPool) (path : String) (r : TransferResult),
       path ∉ (p.step (.finish path r)).in_flight_paths) := by
  refine ⟨?_, ?_, ?_, ?_⟩
  · intro p w
    by_cases hc : p.has_capacity = false
    · have hle : p.max_workers ≤ p.active_count :=
        Nat.not_lt.mp (by simpa [TransferPool.has_capacity] using hc)
      simp [TransferPool.submit, hc, hle]
    · have hlt : p.active_count < p.max_workers := by
        by_contra hnot
        exact hc (by simp [TransferPool.has_capacity, hnot])
      by_cases hm : w.source_path ∈ p.in_flight_paths
      · simp [TransferPool.submit, hc, hm]
      · simp [TransferPool.submit, hc, hm, Nat.not_le.mpr hlt]
  · intro p w h
    by_cases hc : p.has_capacity = false
    · simp [TransferPool.submit, hc] at h
    · by_cases hm : w.source_path ∈ p.in_flight_paths
      · simp [TransferPool.submit, hc, hm] at h
      · simp [TransferPool.submit, hc, hm]
  · intro n es hv
    have hinv := poolInv_runEvents es (initPool n) (poolInv_initPool n) hv
    exact ⟨hinv.2.1, hinv.1⟩
  · intro p path r
    simp [TransferPool.step, List.mem_filter]

/-- Witness for C2: a concrete valid trace (submit, start, finish of one
worker) on a one-slot pool keeps the worker paths duplicate-free. -/
theorem transfer_pool_no_duplicate_paths_witness :
    (∀ e ∈ es0, validEventB e = true)
  ∧ ((runEvents (initPool 1) es0).workers.map PoolWorker.source_path).Nodup :=
  ⟨by decide, (transfer_pool_no_duplicate_paths.2.2.1 1 es0 (by decide)).1⟩

end
